import Mathlib

/-!
Verification development for a small React + TypeScript application
(`src/unnamed/part_000` and `src/component-creation-2/my-app/src/Button/Button.tsx`).

The application consists of:
* `CardComponent` — a presentational card with a local click counter;
* `DataFetcherComponent` — a view that performs one HTTP GET on mount and
  renders one of three states (loading / error / data);
* `App` — a page switch between `home` (a grid of three cards) and `data`
  (the fetcher);
* `Button` — a presentational button whose CSS classes are selected by a
  `variant` prop.

The embedding below translates those components into pure Lean definitions.
State commits of the fetcher are modelled at microtask boundaries (React 18
batches the `setData`/`setError` call with the `setLoading(false)` of the
`finally` block, since they run in the same synchronous continuation after
the last `await`).
-/

/-- The `Post` interface (part_000 lines 15-19): the shape of the fetched data. -/
structure Post where
  id : Int
  title : String
  body : String
deriving Repr, DecidableEq

/-- The `Page` union type (part_000 line 22): `'home' | 'data'`. -/
inductive Page where
  | home
  | data
deriving Repr, DecidableEq

/-- The three `useState` fields of `DataFetcherComponent` (part_000 lines 61-65):
`data : Post | null`, `loading : boolean`, `error : Error | null`
(an `Error` value is represented by its message string). -/
structure FetcherState where
  data : Option Post
  loading : Bool
  error : Option String
deriving Repr, DecidableEq

/-- The initial state of `DataFetcherComponent` on mount:
`useState(null)`, `useState(true)`, `useState(null)` (part_000 lines 61-65). -/
def initFetcherState : FetcherState :=
  { data := none, loading := true, error := none }

/-- How the body of an HTTP response behaves under `response.json()`:
either the parse rejects (malformed JSON, carrying the resulting error
message) or it yields a value of the `Post | null` shape. -/
inductive BodyParse where
  | malformed (msg : String)
  | parsed (p : Option Post)
deriving Repr, DecidableEq

/-- The possible resolutions of the `fetch` call in `fetchData`
(part_000 line 76): the transport rejects (network error, carrying the
error's message), or a response with a status code and a body arrives. -/
inductive FetchOutcome where
  | transportError (msg : String)
  | response (status : Nat) (body : BodyParse)
deriving Repr, DecidableEq

/-- `Response.ok` of the Fetch API: `true` iff the status is in 200..299.
Used by the check at part_000 line 79. -/
def respOk (status : Nat) : Bool :=
  200 ≤ status && status ≤ 299

/-- The committed state after the async `fetchData` closure
(part_000 lines 69-94) finishes, for a given resolution of the fetch:
* transport error: `catch` runs `setError(e)`, `finally` runs `setLoading(false)`;
* `!response.ok` (line 79): `throw new Error` with the message
  built from the status (line 80), caught as above;
* malformed body: `response.json()` rejects, caught as above;
* parsed body: `setData(json)` (line 85), then `setLoading(false)`. -/
def resolveState (o : FetchOutcome) : FetcherState :=
  match o with
  | FetchOutcome.transportError msg =>
      { data := none, loading := false, error := some msg }
  | FetchOutcome.response status body =>
      if respOk status then
        match body with
        | BodyParse.malformed msg =>
            { data := none, loading := false, error := some msg }
        | BodyParse.parsed p =>
            { data := p, loading := false, error := none }
      else
        { data := none, loading := false,
          error := some ("HTTP error! status: " ++ toString status) }

/-- The sequence of committed states of one activation of
`DataFetcherComponent`, given the fetch's resolution: the mount commit
(the synchronous `setLoading(true)`/`setError(null)` at lines 72-74 do not
change the initial values), then the resolution commit. -/
def activationTrace (o : FetchOutcome) : List FetcherState :=
  [initFetcherState, resolveState o]

/-- A committed state is reachable if some activation passes through it. -/
def ReachableState (s : FetcherState) : Prop :=
  ∃ o, s ∈ activationTrace o

/-- The three display modes of the conditional render
(part_000 lines 100-121). -/
inductive Tag where
  | loading
  | failed
  | loaded
deriving Repr, DecidableEq

/-- Which branch of the conditional render is taken (part_000 lines 100-115):
`if (loading)` first, then `if (error)`, else the card. -/
def renderTag (s : FetcherState) : Tag :=
  if s.loading then Tag.loading
  else if s.error.isSome then Tag.failed
  else Tag.loaded

/-- JavaScript `x || fallback` on an optional string (`data?.title || 'No Title'`,
part_000 lines 117-118): `undefined`/`null` and the empty string are falsy. -/
def strOrElse (x : Option String) (fallback : String) : String :=
  match x with
  | none => fallback
  | some s => if s = "" then fallback else s

/-- The displayable structure produced by `DataFetcherComponent`'s render:
the loading text, the error view's three lines, or the props passed to
`CardComponent`. -/
inductive View where
  | loadingView (text : String)
  | errorView (heading sub detail : String)
  | cardView (title content : String)
deriving Repr, DecidableEq

/-- The conditional render of `DataFetcherComponent` (part_000 lines 100-121). -/
def render (s : FetcherState) : View :=
  if s.loading then View.loadingView "Loading..."
  else
    match s.error with
    | some msg =>
        View.errorView "Error!" "Could not fetch data. Please try again later."
          ("Error message: " ++ msg)
    | none =>
        View.cardView (strOrElse (s.data.map Post.title) "No Title")
          (strOrElse (s.data.map Post.body) "No content found.")

/-! ### Liveness of the fetcher instance (the effect's cleanup behaviour)

The `useEffect` at part_000 lines 68-97 registers the async `fetchData`
closure and returns no cleanup function; the closure consults no liveness
flag before calling `setData`/`setError`/`setLoading`. -/

/-- A `DataFetcherComponent` instance together with its liveness:
`mounted` becomes `false` when the owning view is deactivated. -/
structure MountedFetcher where
  mounted : Bool
  st : FetcherState
deriving Repr, DecidableEq

/-- Mounting the component: live, with the initial hook values. -/
def mountFetcher : MountedFetcher :=
  { mounted := true, st := initFetcherState }

/-- Deactivation (unmount) of the owning view. -/
def deactivate (m : MountedFetcher) : MountedFetcher :=
  { m with mounted := false }

/-- The continuation of the `fetchData` closure once the fetch resolves
(part_000 lines 79-93), exactly as written: the state setters are invoked
unconditionally — `m.mounted` is not consulted, since the effect installs
no liveness flag and returns no cleanup function. -/
def applyResolution (o : FetchOutcome) (m : MountedFetcher) : MountedFetcher :=
  { m with st := resolveState o }

/-! ### The card component, the home grid and the app shell -/

/-- `handleCardClick` (part_000 lines 31-33): `setClickCount(prev => prev + 1)`. -/
def handleCardClick (clickCount : Nat) : Nat :=
  clickCount + 1

/-- The click-count line of `CardComponent` (part_000 line 51):
`Clicked: {clickCount} time{clickCount !== 1 ? 's' : ''}`. -/
def clickCountDisplay (n : Nat) : String :=
  "Clicked: " ++ toString n ++ " time" ++ (if n != 1 then "s" else "")

/-- The `home` page renders three `CardComponent`s (part_000 lines 165-179),
each with its own `useState(0)` click counter: the grid's counters. -/
def initialHomeGrid : List Nat :=
  [0, 0, 0]

/-- Clicking the card at position `i` of the grid: only that card's
`handleCardClick` runs (each counter is local component state). -/
def clickCard : Nat → List Nat → List Nat
  | _, [] => []
  | 0, c :: rest => handleCardClick c :: rest
  | i + 1, c :: rest => c :: clickCard i rest

/-- The props of the three cards on the `home` page
(part_000 lines 167-178): title and content pairs. -/
def homeCards : List (String × String) :=
  [("Introduction to Components",
    "This card is a reusable component. It takes a title and content as props and has its own internal state."),
   ("TypeScript in Action",
    "Props for this component are strictly typed using a TypeScript interface, ensuring we pass the correct data types."),
   ("Local State Example",
    "Clicking this card updates its local state (the click count) without affecting the other cards.")]

/-- The top-level content selected by the `switch (currentPage)`
(part_000 lines 161-190): the home grid of cards, or the fetcher's view. -/
inductive PageContent where
  | homeGrid (cards : List (String × String))
  | fetcherView (v : View)
deriving Repr, DecidableEq

/-- The state of `App` (part_000 line 126) together with the mounted
`DataFetcherComponent` instance, present exactly while `currentPage` is
`data`, and a count of fetch cycles initiated so far (the effect with the
empty dependency array runs once per mount, part_000 line 97). -/
structure AppState where
  currentPage : Page
  fetcher : Option FetcherState
  fetchCount : Nat
deriving Repr, DecidableEq

/-- `App` starts on the `home` page (part_000 line 126: `useState<Page>('home')`). -/
def initialApp : AppState :=
  { currentPage := Page.home, fetcher := none, fetchCount := 0 }

/-- Clicking a navigation button: `setCurrentPage(p)` (part_000 lines 139, 149).
Setting the identical value bails out (no re-render, no remount). A change
to `data` mounts a fresh `DataFetcherComponent` (state initialised, one
fetch cycle started); a change to `home` unmounts it. -/
def selectPage (p : Page) (a : AppState) : AppState :=
  if a.currentPage = p then a
  else
    match p with
    | Page.home =>
        { currentPage := Page.home, fetcher := none, fetchCount := a.fetchCount }
    | Page.data =>
        { currentPage := Page.data, fetcher := some initFetcherState,
          fetchCount := a.fetchCount + 1 }

/-- The currently mounted fetcher's pending fetch resolves with outcome `o`. -/
def resolveApp (o : FetchOutcome) (a : AppState) : AppState :=
  { a with fetcher := a.fetcher.map (fun _ => resolveState o) }

/-- The `switch (currentPage)` render of `App` (part_000 lines 161-190):
`home` shows the card grid, `data` shows the fetcher (when mounted). -/
def renderApp (a : AppState) : Option PageContent :=
  match a.currentPage with
  | Page.home => some (PageContent.homeGrid homeCards)
  | Page.data => a.fetcher.map (fun s => PageContent.fetcherView (render s))

/-! ### The Button component (Button.tsx) -/

/-- The `variant` prop of `Button` (Button.tsx line 6): `'primary' | 'secondary'`. -/
inductive Variant where
  | primary
  | secondary
deriving Repr, DecidableEq

/-- `baseClasses` (Button.tsx line 18). -/
def baseClasses : String :=
  "px-4 py-2 rounded font-semibold text-white transition-colors duration-200"

/-- `variantClasses` (Button.tsx line 19):
`variant === 'primary' ? 'bg-blue-500 hover:bg-blue-600' : 'bg-gray-500 hover:bg-gray-600'`. -/
def variantClasses (v : Variant) : String :=
  if v = Variant.primary then "bg-blue-500 hover:bg-blue-600"
  else "bg-gray-500 hover:bg-gray-600"

/-- The `className` of the rendered button (Button.tsx line 23). -/
def buttonClassName (v : Variant) : String :=
  baseClasses ++ " " ++ variantClasses v

/-! ### Helper lemmas -/

/-- Every resolution commit has `loading = false`: the `finally` block of
`fetchData` runs on every path. -/
theorem resolveState_loading_false (o : FetchOutcome) :
    (resolveState o).loading = false := by
  cases o with
  | transportError msg => rfl
  | response status body =>
      cases body with
      | malformed msg => simp only [resolveState]; split <;> rfl
      | parsed p => simp only [resolveState]; split <;> rfl

/-- A resolution commit renders as the error view or the card, never as loading. -/
theorem renderTag_resolveState (o : FetchOutcome) :
    renderTag (resolveState o) = Tag.failed ∨ renderTag (resolveState o) = Tag.loaded := by
  unfold renderTag
  rw [resolveState_loading_false]
  cases h : (resolveState o).error.isSome <;> simp [h]

/-! ### Claim theorems -/

/-- C2: for every activation of the DataFetcher (every resolution `o` of its
single fetch), the rendered state sequence is exactly
`[Loading, t]` with `t ∈ set of Failed, Loaded`: Loading transitions to exactly one of
Failed or Loaded, exactly once, and never reverts to Loading afterwards. -/
theorem fetcher_loading_resolves_exactly_once (o : FetchOutcome) :
    (activationTrace o).map renderTag = [Tag.loading, renderTag (resolveState o)] ∧
    renderTag (resolveState o) ≠ Tag.loading ∧
    (renderTag (resolveState o) = Tag.failed ∨ renderTag (resolveState o) = Tag.loaded) ∧
    ((activationTrace o).map renderTag).count Tag.loading = 1 := by
  have h := renderTag_resolveState o
  have hne : renderTag (resolveState o) ≠ Tag.loading := by
    rcases h with h | h <;> rw [h] <;> intro hc <;> cases hc
  refine ⟨rfl, hne, h, ?_⟩
  show (List.count Tag.loading [Tag.loading, renderTag (resolveState o)]) = 1
  rcases h with h | h <;> rw [h] <;> rfl

/-- C3: every reachable committed state of the DataFetcher reads as exactly
one of the three variants (Loading: `loading` set with no committed result;
Failed: a stored error and no data; Loaded: neither loading nor error), and
the fields never contradict a single-tag reading: never a stored error
together with stored data, never `loading` together with a committed result. -/
theorem fetcher_single_variant (s : FetcherState) (h : ReachableState s) :
    ((s.loading = true ∧ s.data = none ∧ s.error = none) ∨
     (s.loading = false ∧ s.error.isSome = true ∧ s.data = none) ∨
     (s.loading = false ∧ s.error = none)) ∧
    ¬(s.error.isSome = true ∧ s.data.isSome = true) ∧
    ¬(s.loading = true ∧ (s.data.isSome = true ∨ s.error.isSome = true)) := by
  obtain ⟨o, hmem⟩ := h
  simp only [activationTrace, List.mem_cons, List.mem_singleton, List.not_mem_nil,
    or_false] at hmem
  rcases hmem with rfl | rfl
  · simp [initFetcherState]
  · cases o with
    | transportError msg => simp [resolveState]
    | response status body =>
        by_cases hok : respOk status = true
        · cases body with
          | malformed msg => simp [resolveState, hok]
          | parsed p => simp [resolveState, hok]
        · simp [resolveState, hok]

/-- C3 witness: the initial state is reachable and satisfies the invariant. -/
theorem fetcher_single_variant_witness :
    ReachableState initFetcherState ∧
    (((initFetcherState.loading = true ∧ initFetcherState.data = none ∧
        initFetcherState.error = none) ∨
      (initFetcherState.loading = false ∧ initFetcherState.error.isSome = true ∧
        initFetcherState.data = none) ∨
      (initFetcherState.loading = false ∧ initFetcherState.error = none)) ∧
     ¬(initFetcherState.error.isSome = true ∧ initFetcherState.data.isSome = true) ∧
     ¬(initFetcherState.loading = true ∧
        (initFetcherState.data.isSome = true ∨ initFetcherState.error.isSome = true))) :=
  ⟨⟨FetchOutcome.transportError "network down", List.mem_cons_self _ _⟩,
   fetcher_single_variant initFetcherState
     ⟨FetchOutcome.transportError "network down", List.mem_cons_self _ _⟩⟩

/-- C4: a non-2xx response makes the state Failed with the error message
built from the HTTP status, and at status 404 the rendered error view's
displayed message contains "404". -/
theorem http_error_fails_with_status (status : Nat) (body : BodyParse)
    (h : respOk status = false) :
    renderTag (resolveState (FetchOutcome.response status body)) = Tag.failed ∧
    (resolveState (FetchOutcome.response status body)).error =
      some ("HTTP error! status: " ++ toString status) ∧
    (∃ pre post : String,
      render (resolveState (FetchOutcome.response 404 body)) =
        View.errorView "Error!" "Could not fetch data. Please try again later."
          (pre ++ "404" ++ post)) := by
  refine ⟨?_, ?_, "Error message: HTTP error! status: ", "", ?_⟩
  · simp [renderTag, resolveState, h]
  · simp [resolveState, h]
  · have h404 : respOk 404 = false := by decide
    cases body <;> simp [render, resolveState, h404] <;> decide

/-- C4 witness: status 404 is non-2xx and yields the Failed state whose
rendered message contains "404". -/
theorem http_error_fails_with_status_witness :
    respOk 404 = false ∧
    (renderTag (resolveState (FetchOutcome.response 404 (BodyParse.parsed none))) =
        Tag.failed ∧
     (resolveState (FetchOutcome.response 404 (BodyParse.parsed none))).error =
        some ("HTTP error! status: " ++ toString 404) ∧
     (∃ pre post : String,
       render (resolveState (FetchOutcome.response 404 (BodyParse.parsed none))) =
         View.errorView "Error!" "Could not fetch data. Please try again later."
           (pre ++ "404" ++ post))) :=
  ⟨by decide, http_error_fails_with_status 404 (BodyParse.parsed none) (by decide)⟩

/-- C5: when the response is 2xx but its body is malformed JSON
(`response.json()` rejects), the state becomes Failed, not Loaded, and
loading is exited. -/
theorem malformed_json_fails (status : Nat) (msg : String) (h : respOk status = true) :
    renderTag (resolveState (FetchOutcome.response status (BodyParse.malformed msg))) =
      Tag.failed ∧
    renderTag (resolveState (FetchOutcome.response status (BodyParse.malformed msg))) ≠
      Tag.loaded ∧
    (resolveState (FetchOutcome.response status (BodyParse.malformed msg))).loading =
      false := by
  refine ⟨?_, ?_, resolveState_loading_false _⟩ <;> simp [renderTag, resolveState, h]

/-- C5 witness: a 200 response with a malformed body resolves to Failed. -/
theorem malformed_json_fails_witness :
    respOk 200 = true ∧
    (renderTag (resolveState (FetchOutcome.response 200
        (BodyParse.malformed "Unexpected end of JSON input"))) = Tag.failed ∧
     renderTag (resolveState (FetchOutcome.response 200
        (BodyParse.malformed "Unexpected end of JSON input"))) ≠ Tag.loaded ∧
     (resolveState (FetchOutcome.response 200
        (BodyParse.malformed "Unexpected end of JSON input"))).loading = false) :=
  ⟨by decide, malformed_json_fails 200 "Unexpected end of JSON input" (by decide)⟩

/-- C6: a 200 response whose body parses to the post with title "T" and body
"B" renders as the card view with title "T" and content "B". -/
theorem success_renders_title_and_body :
    render (resolveState (FetchOutcome.response 200
      (BodyParse.parsed (some { id := 1, title := "T", body := "B" })))) =
    View.cardView "T" "B" := by decide

/-- C1, behaviour of the code at the failing input: the view is deactivated
while the fetch is pending, the fetch then resolves with a 200 response, and
the resolution is still applied — the fetcher's state is mutated after
deactivation, because the effect installs no liveness flag and returns no
cleanup function (part_000 lines 68-97). -/
theorem resolution_applied_after_deactivation :
    (applyResolution (FetchOutcome.response 200 (BodyParse.parsed
        (some { id := 1, title := "T", body := "B" })))
      (deactivate mountFetcher)).mounted = false ∧
    (applyResolution (FetchOutcome.response 200 (BodyParse.parsed
        (some { id := 1, title := "T", body := "B" })))
      (deactivate mountFetcher)).st ≠ (deactivate mountFetcher).st := by decide

/-- C9: the Button's variant prop ranges over exactly the two values
primary and secondary, primary selects the blue class set, secondary the
gray class set, and no other class outcome is possible. -/
theorem button_variant_mapping :
    (∀ v : Variant, v = Variant.primary ∨ v = Variant.secondary) ∧
    variantClasses Variant.primary = "bg-blue-500 hover:bg-blue-600" ∧
    variantClasses Variant.secondary = "bg-gray-500 hover:bg-gray-600" ∧
    (∀ v : Variant,
      variantClasses v = "bg-blue-500 hover:bg-blue-600" ∨
      variantClasses v = "bg-gray-500 hover:bg-gray-600") ∧
    (∀ v : Variant, buttonClassName v = baseClasses ++ " " ++ variantClasses v) := by
  refine ⟨fun v => ?_, by decide, by decide, fun v => ?_, fun v => rfl⟩
  · cases v
    · exact Or.inl rfl
    · exact Or.inr rfl
  · cases v
    · exact Or.inl (by decide)
    · exact Or.inr (by decide)

/-- C10: in the Loaded state, an empty title displays as "No Title", an empty
body displays as "No content found.", and a null payload displays both
fallbacks — the JavaScript `x || fallback` treats the empty string and
null/undefined as falsy. -/
theorem loaded_fallback_texts (p q : Post) (ht : p.title = "") (hb : q.body = "") :
    render { data := some p, loading := false, error := none } =
      View.cardView "No Title" (strOrElse (some p.body) "No content found.") ∧
    render { data := some q, loading := false, error := none } =
      View.cardView (strOrElse (some q.title) "No Title") "No content found." ∧
    render { data := none, loading := false, error := none } =
      View.cardView "No Title" "No content found." := by
  refine ⟨?_, ?_, by decide⟩ <;> simp [render, strOrElse, ht, hb]

/-- C10 witness: concrete posts with empty title and empty body. -/
theorem loaded_fallback_texts_witness :
    ({ id := 1, title := "", body := "B" } : Post).title = "" ∧
    ({ id := 2, title := "T", body := "" } : Post).body = "" ∧
    (render { data := some { id := 1, title := "", body := "B" },
              loading := false, error := none } =
      View.cardView "No Title"
        (strOrElse (some ({ id := 1, title := "", body := "B" } : Post).body)
          "No content found.") ∧
     render { data := some { id := 2, title := "T", body := "" },
              loading := false, error := none } =
      View.cardView
        (strOrElse (some ({ id := 2, title := "T", body := "" } : Post).title)
          "No Title") "No content found." ∧
     render { data := none, loading := false, error := none } =
      View.cardView "No Title" "No content found.") :=
  ⟨rfl, rfl,
   loaded_fallback_texts { id := 1, title := "", body := "B" }
     { id := 2, title := "T", body := "" } rfl rfl⟩

/-- C7: the page identifier is drawn from the closed set of `home` and `data`;
from the `home` page, selecting `data` unmounts the home content (the grid is
no longer rendered), mounts the fetcher showing Loading, and starts exactly
one fetch cycle; after the fetch resolves and the user returns `home`,
re-selecting `data` mounts a fresh instance that restarts from Loading with
exactly one more fetch cycle. -/
theorem navigation_switch (a : AppState) (o : FetchOutcome)
    (h : a.currentPage = Page.home) :
    (∀ p : Page, p = Page.home ∨ p = Page.data) ∧
    ((selectPage Page.data a).currentPage = Page.data ∧
     renderApp (selectPage Page.data a) =
       some (PageContent.fetcherView (View.loadingView "Loading...")) ∧
     (∀ cs, renderApp (selectPage Page.data a) ≠ some (PageContent.homeGrid cs)) ∧
     (selectPage Page.data a).fetchCount = a.fetchCount + 1 ∧
     (selectPage Page.data a).fetcher = some initFetcherState ∧
     renderTag initFetcherState = Tag.loading) ∧
    ((selectPage Page.data (selectPage Page.home
        (resolveApp o (selectPage Page.data a)))).fetcher = some initFetcherState ∧
     renderApp (selectPage Page.data (selectPage Page.home
        (resolveApp o (selectPage Page.data a)))) =
       some (PageContent.fetcherView (View.loadingView "Loading...")) ∧
     (selectPage Page.data (selectPage Page.home
        (resolveApp o (selectPage Page.data a)))).fetchCount = a.fetchCount + 2) := by
  have hne : ¬(a.currentPage = Page.data) := by
    rw [h]
    intro hc
    cases hc
  have h1 : selectPage Page.data a =
      { currentPage := Page.data, fetcher := some initFetcherState,
        fetchCount := a.fetchCount + 1 } := by
    unfold selectPage
    rw [if_neg hne]
  refine ⟨fun p => ?_, ?_, ?_⟩
  · cases p
    · exact Or.inl rfl
    · exact Or.inr rfl
  · rw [h1]
    refine ⟨rfl, rfl, fun cs hc => ?_, rfl, rfl, rfl⟩
    simp [renderApp, render, initFetcherState] at hc
  · rw [h1]
    exact ⟨rfl, rfl, rfl⟩

/-- C7 witness: the initial app state is on the `home` page; the navigation
scenario from there behaves as stated. -/
theorem navigation_switch_witness :
    initialApp.currentPage = Page.home ∧
    ((∀ p : Page, p = Page.home ∨ p = Page.data) ∧
     ((selectPage Page.data initialApp).currentPage = Page.data ∧
      renderApp (selectPage Page.data initialApp) =
        some (PageContent.fetcherView (View.loadingView "Loading...")) ∧
      (∀ cs, renderApp (selectPage Page.data initialApp) ≠
        some (PageContent.homeGrid cs)) ∧
      (selectPage Page.data initialApp).fetchCount = initialApp.fetchCount + 1 ∧
      (selectPage Page.data initialApp).fetcher = some initFetcherState ∧
      renderTag initFetcherState = Tag.loading) ∧
     ((selectPage Page.data (selectPage Page.home
         (resolveApp (FetchOutcome.transportError "network down")
           (selectPage Page.data initialApp)))).fetcher = some initFetcherState ∧
      renderApp (selectPage Page.data (selectPage Page.home
         (resolveApp (FetchOutcome.transportError "network down")
           (selectPage Page.data initialApp)))) =
        some (PageContent.fetcherView (View.loadingView "Loading...")) ∧
      (selectPage Page.data (selectPage Page.home
         (resolveApp (FetchOutcome.transportError "network down")
           (selectPage Page.data initialApp)))).fetchCount =
        initialApp.fetchCount + 2)) :=
  ⟨rfl, navigation_switch initialApp (FetchOutcome.transportError "network down") rfl⟩

/-- Clicking a card preserves the number of cards in the grid. -/
theorem clickCard_length (i : Nat) (g : List Nat) :
    (clickCard i g).length = g.length := by
  induction g generalizing i with
  | nil => cases i <;> rfl
  | cons c rest ih =>
      cases i with
      | zero => rfl
      | succ i' => simp [clickCard, ih]

/-- Clicking the card at position `i` increments exactly that counter. -/
theorem clickCard_getD_self (i : Nat) (g : List Nat) (h : i < g.length) :
    (clickCard i g).getD i 0 = g.getD i 0 + 1 := by
  induction g generalizing i with
  | nil => cases h
  | cons c rest ih =>
      cases i with
      | zero => rfl
      | succ i' =>
          simp only [clickCard, List.getD_cons_succ]
          exact ih i' (by simp at h; omega)

/-- Clicking the card at position `i` leaves counter `j ≠ i` unchanged. -/
theorem clickCard_getD_other (i j : Nat) (g : List Nat) (h : j ≠ i) :
    (clickCard i g).getD j 0 = g.getD j 0 := by
  induction g generalizing i j with
  | nil => cases i <;> rfl
  | cons c rest ih =>
      cases i with
      | zero =>
          cases j with
          | zero => exact absurd rfl h
          | succ j' => simp [clickCard, List.getD_cons_succ]
      | succ i' =>
          cases j with
          | zero => rfl
          | succ j' =>
              simp only [clickCard, List.getD_cons_succ]
              exact ih i' j' (fun hc => h (by rw [hc]))

/-- Iterated clicks preserve the grid size. -/
theorem clickCard_iterate_length (i n : Nat) (g : List Nat) :
    ((clickCard i)^[n] g).length = g.length := by
  induction n with
  | zero => rfl
  | succ k ih => rw [Function.iterate_succ_apply', clickCard_length, ih]

/-- After `n` clicks on card `i`, its counter has grown by `n`. -/
theorem clickCard_iterate_self (i n : Nat) (g : List Nat) (h : i < g.length) :
    ((clickCard i)^[n] g).getD i 0 = g.getD i 0 + n := by
  induction n with
  | zero => rfl
  | succ k ih =>
      rw [Function.iterate_succ_apply',
        clickCard_getD_self i _ (by rw [clickCard_iterate_length]; exact h), ih]
      omega

/-- Clicks on card `i` never change counter `j ≠ i`. -/
theorem clickCard_iterate_other (i j n : Nat) (g : List Nat) (h : j ≠ i) :
    ((clickCard i)^[n] g).getD j 0 = g.getD j 0 := by
  induction n with
  | zero => rfl
  | succ k ih => rw [Function.iterate_succ_apply', clickCard_getD_other i j _ h, ih]

/-- C8: starting from the home grid (each of the three counters at 0), `n`
clicks on card `i` make its counter `n` and its displayed line show the
count `n`, while every other card's counter stays at its initial value 0. -/
theorem card_click_counts (n i j : Nat) (hi : i < initialHomeGrid.length)
    (hj : j ≠ i) :
    ((clickCard i)^[n] initialHomeGrid).getD i 0 = n ∧
    (∃ post : String,
      clickCountDisplay (((clickCard i)^[n] initialHomeGrid).getD i 0) =
        "Clicked: " ++ toString n ++ post) ∧
    ((clickCard i)^[n] initialHomeGrid).getD j 0 = initialHomeGrid.getD j 0 ∧
    initialHomeGrid.getD j 0 = 0 := by
  have hzero : ∀ k : Nat, initialHomeGrid.getD k 0 = 0 := by
    intro k
    rcases k with _ | _ | _ | k <;> rfl
  have hself : ((clickCard i)^[n] initialHomeGrid).getD i 0 = n := by
    rw [clickCard_iterate_self i n _ hi, hzero i]
    omega
  refine ⟨hself, ⟨" time" ++ (if n != 1 then "s" else ""), ?_⟩,
    clickCard_iterate_other i j n _ hj, hzero j⟩
  rw [hself]
  simp [clickCountDisplay, String.append_assoc]

/-- C8 witness: two clicks on the first card display count 2 and leave the
second card's counter at 0. -/
theorem card_click_counts_witness :
    0 < initialHomeGrid.length ∧ (1 : Nat) ≠ 0 ∧
    (((clickCard 0)^[2] initialHomeGrid).getD 0 0 = 2 ∧
     (∃ post : String,
       clickCountDisplay (((clickCard 0)^[2] initialHomeGrid).getD 0 0) =
         "Clicked: " ++ toString 2 ++ post) ∧
     ((clickCard 0)^[2] initialHomeGrid).getD 1 0 = initialHomeGrid.getD 1 0 ∧
     initialHomeGrid.getD 1 0 = 0) :=
  ⟨by decide, by decide, card_click_counts 2 0 1 (by decide) (by decide)⟩
